import Mathlib

/-!
Verification of the pyrobolearn excerpt: the priority-constraint taxonomy
of `pyrobolearn/priorities/constraints/constraint.py`, the QP standard-form
reduction and hard-priority cascade documented in that module's docstring,
the `Approximator` wrapper of `pyrobolearn/approximators/approximator.py`,
and the manipulator classes of `pyrobolearn/robots/manipulator.py`.

The Python code is shallowly embedded: Python objects relevant to the claims
become Lean structures, attribute access that may raise `AttributeError`
returns `Except`, `raise` becomes `Except.error`, and Python's class-level
static-method resolution (walking the method resolution order) is modelled
explicitly so that inherited predicate values are computed exactly as
CPython computes them.
-/

/-! ## Python error values

The error kinds raised by the embedded code: `TypeError` (bad argument
type), `ValueError` (bad argument value), `AttributeError` (attribute read
before any assignment), `IndexError` (list index out of range). -/

inductive PyError where
  | typeError
  | valueError
  | attributeError
  | indexError
deriving DecidableEq, Repr

/-! ## The constraint class hierarchy (`constraint.py`)

`Constraint` is the base class; `EqualityConstraint`, `InequalityConstraint`,
`UnilateralConstraint`, `BilateralConstraint`, `BoundConstraint`,
`KinematicConstraint`, `JointVelocityConstraint`, `DynamicConstraint`,
`JointAccelerationConstraint`, `JointEffortConstraint` are its (direct or
indirect) subclasses, every one of whose bodies is `pass`. -/

inductive ConstraintClass where
  | constraintBase
  | equalityConstraint
  | inequalityConstraint
  | unilateralConstraint
  | bilateralConstraint
  | boundConstraint
  | kinematicConstraint
  | jointVelocityConstraint
  | dynamicConstraint
  | jointAccelerationConstraint
  | jointEffortConstraint
deriving DecidableEq, Repr

/-- The concrete variants named by the taxonomy: every class of the file
except the abstract base `Constraint`. -/
def ConstraintClass.isConcreteVariant : ConstraintClass → Bool
  | .constraintBase => false
  | _ => true

/-- Method-resolution order of each class, exactly as CPython linearizes the
single-inheritance chains of `constraint.py` (the class itself first, then
its parent, up to `Constraint`; `object` contributes no methods here). -/
def ConstraintClass.mro : ConstraintClass → List ConstraintClass
  | .constraintBase => [.constraintBase]
  | .equalityConstraint => [.equalityConstraint, .constraintBase]
  | .inequalityConstraint => [.inequalityConstraint, .constraintBase]
  | .unilateralConstraint => [.unilateralConstraint, .inequalityConstraint, .constraintBase]
  | .bilateralConstraint => [.bilateralConstraint, .inequalityConstraint, .constraintBase]
  | .boundConstraint => [.boundConstraint, .inequalityConstraint, .constraintBase]
  | .kinematicConstraint => [.kinematicConstraint, .constraintBase]
  | .jointVelocityConstraint => [.jointVelocityConstraint, .kinematicConstraint, .constraintBase]
  | .dynamicConstraint => [.dynamicConstraint, .constraintBase]
  | .jointAccelerationConstraint => [.jointAccelerationConstraint, .dynamicConstraint, .constraintBase]
  | .jointEffortConstraint => [.jointEffortConstraint, .dynamicConstraint, .constraintBase]

/-- The five classification predicates declared as static methods on
`Constraint`. -/
inductive PredicateName where
  | isEqualityConstraint
  | isInequalityConstraint
  | hasBounds
  | isUnilateralConstraint
  | isBilateralConstraint
deriving DecidableEq, Repr

/-- The class dictionary of each class, restricted to the five classification
predicates: `Constraint` defines all five static methods with body
`return False`; every subclass body in the file is `pass`, so no subclass
defines any of them (`none`). -/
def classDict (c : ConstraintClass) (_m : PredicateName) : Option Bool :=
  match c with
  | .constraintBase => some false
  | _ => none

/-- CPython attribute lookup on a class: walk the method-resolution order and
return the first class dictionary entry found. -/
def resolveStaticMethod (c : ConstraintClass) (m : PredicateName) : Option Bool :=
  c.mro.findSome? (fun k => classDict k m)

/-- `Constraint.is_equality_constraint()` as called on class `c`. -/
def is_equality_constraint (c : ConstraintClass) : Option Bool :=
  resolveStaticMethod c .isEqualityConstraint

/-- `Constraint.is_inequality_constraint()` as called on class `c`. -/
def is_inequality_constraint (c : ConstraintClass) : Option Bool :=
  resolveStaticMethod c .isInequalityConstraint

/-- `Constraint.has_bounds()` as called on class `c`. -/
def has_bounds (c : ConstraintClass) : Option Bool :=
  resolveStaticMethod c .hasBounds

/-- `Constraint.is_unilateral_constraint()` as called on class `c`. -/
def is_unilateral_constraint (c : ConstraintClass) : Option Bool :=
  resolveStaticMethod c .isUnilateralConstraint

/-- `Constraint.is_bilateral_constraint()` as called on class `c`. -/
def is_bilateral_constraint (c : ConstraintClass) : Option Bool :=
  resolveStaticMethod c .isBilateralConstraint

/-- The classification property the claim asserts of every concrete variant:
exactly one of the three main predicates returns `True`. -/
def exactlyOneClassification (c : ConstraintClass) : Bool :=
  ((if is_equality_constraint c = some true then 1 else 0)
    + (if is_inequality_constraint c = some true then 1 else 0)
    + (if has_bounds c = some true then 1 else 0) : Nat) = 1

/-! ## Constraint instances (`Constraint.__init__`, properties, `update`)

Values passed to the `Constraint` constructor: the `model.setter` only asks
`isinstance(model, ModelInterface)`, so an argument is embedded as a tag
recording whether it is a `ModelInterface` instance plus an identity. -/

structure PyObj where
  isModelInterface : Bool
  objId : Nat
deriving DecidableEq, Repr

/-- Numeric vectors (`np.array` 1-d) are embedded as rational lists. -/
abbrev PyVec := List ℚ

/-- Numeric matrices (`np.array` 2-d) are embedded as rational row lists. -/
abbrev PyMat := List (List ℚ)

/-- Attribute state of one `Constraint` instance.  `__init__` assigns only
`self.model` (through the `model.setter`); `_lower_bound`, `_upper_bound`,
`_A_eq`, `_b_eq`, `_A_ineq`, `_b_lower_bound`, `_b_upper_bound` are read by
the properties but never assigned anywhere in the file, so each is an
`Option` that is `none` while the Python attribute does not exist. -/
structure ConstraintState where
  _model : PyObj
  _lower_bound : Option PyVec := none
  _upper_bound : Option PyVec := none
  _A_eq : Option PyMat := none
  _b_eq : Option PyVec := none
  _A_ineq : Option PyMat := none
  _b_lower_bound : Option PyVec := none
  _b_upper_bound : Option PyVec := none
deriving DecidableEq, Repr

namespace Constraint

/-- The `model.setter`: raise `TypeError` unless the argument is a
`ModelInterface` instance, else store it in `self._model`. -/
def setModel (model : PyObj) : Except PyError PyObj :=
  if model.isModelInterface then Except.ok model
  else Except.error PyError.typeError

/-- `Constraint.__init__(self, model)`: `self.model = model` goes through
the `model.setter`; on success the fresh instance has only `_model` set. -/
def init (model : PyObj) : Except PyError ConstraintState :=
  (setModel model).map (fun m => { _model := m })

/-- The `model` property getter: `return self._model`. -/
def model (s : ConstraintState) : PyObj := s._model

/-- Read a maybe-unset Python attribute: `AttributeError` when it was never
assigned, its value otherwise. -/
def readAttr {α : Type} (a : Option α) : Except PyError α :=
  match a with
  | some v => Except.ok v
  | none => Except.error PyError.attributeError

/-- Property `lower_bound`: `return self._lower_bound`. -/
def lower_bound (s : ConstraintState) : Except PyError PyVec :=
  readAttr s._lower_bound

/-- Property `upper_bound`: `return self._upper_bound`. -/
def upper_bound (s : ConstraintState) : Except PyError PyVec :=
  readAttr s._upper_bound

/-- Property `A_eq`: `return self._A_eq`. -/
def A_eq (s : ConstraintState) : Except PyError PyMat :=
  readAttr s._A_eq

/-- Property `b_eq`: `return self._b_eq`. -/
def b_eq (s : ConstraintState) : Except PyError PyVec :=
  readAttr s._b_eq

/-- Property `A_ineq`: `return self._A_ineq`. -/
def A_ineq (s : ConstraintState) : Except PyError PyMat :=
  readAttr s._A_ineq

/-- Property `b_lower_bound`: `return self._b_lower_bound`. -/
def b_lower_bound (s : ConstraintState) : Except PyError PyVec :=
  readAttr s._b_lower_bound

/-- Property `b_upper_bound`: `return self._b_upper_bound`. -/
def b_upper_bound (s : ConstraintState) : Except PyError PyVec :=
  readAttr s._b_upper_bound

/-- Property `G`: its body is `pass`, so the call raises nothing and
returns Python `None` (embedded as `Option.none`). -/
def G (_s : ConstraintState) : Except PyError (Option PyMat) :=
  Except.ok none

/-- Property `h`: body `pass`, returns `None`. -/
def h (_s : ConstraintState) : Except PyError (Option PyVec) :=
  Except.ok none

/-- Property `F`: body `pass`, returns `None`. -/
def F (_s : ConstraintState) : Except PyError (Option PyMat) :=
  Except.ok none

/-- Property `c`: its body is only a docstring, so it returns `None`. -/
def c (_s : ConstraintState) : Except PyError (Option PyVec) :=
  Except.ok none

/-- `Constraint.update(self, x)`: the body is `pass` — no attribute is
assigned, nothing is read or written outside the instance, and nothing is
returned; the instance state is unchanged. -/
def update (s : ConstraintState) (_x : PyVec) : ConstraintState := s

end Constraint

/-! ## Manipulator robots (`manipulator.py`)

`ManipulatorRobot` keeps `self.arms` (list of arms, an arm being a list of
link ids) and `self.hands` (list of end-effectors).  `get_arm_ids` /
`get_hand_ids` take `None`, an `int`, a `str`, a `list`/`tuple` of those, or
anything else. -/

/-- A Python argument as accepted by `get_arm_ids` / `get_hand_ids`:
`noneV` for `None`, `intV` / `strV` for the scalar cases, `listV` for a
`list` or `tuple` (CPython checks `isinstance(arms, (list, tuple))`), and
`otherV` for every value of any other type. -/
inductive PyArg where
  | noneV
  | intV (i : Int)
  | strV (s : String)
  | listV (items : List PyArg)
  | otherV (tag : Nat)

/-- Python list subscript `l[i]` with an `int` index: a negative index counts
from the end; out of range raises `IndexError`. -/
def pyIndex {α : Type} (l : List α) (i : Int) : Except PyError α :=
  let j : Int := if i < 0 then i + l.length else i
  if hj : 0 ≤ j ∧ j.toNat < l.length then Except.ok (l.get ⟨j.toNat, hj.2⟩)
  else Except.error PyError.indexError

/-- State of a `ManipulatorRobot`: the `arms` and `hands` lists set up by
`__init__`, and the inherited `Robot.get_link_ids` (defined outside this
file) abstracted as the function the instance would dispatch to. -/
structure ManipulatorState where
  arms : List (List Int)
  hands : List (List Int)
  getLinkIds : String → Int

/-- Result of `get_arm_ids` / `get_hand_ids`: a single entry (the `int` and
`str` branches) or a list of entries (the `list`/`tuple` branch and the
final `return self.arms` / `return self.hands`). -/
inductive IdsResult where
  | one (a : List Int)
  | many (l : List (List Int))
deriving DecidableEq, Repr

/-- One item of the `list`/`tuple` branch loop body shared by `get_arm_ids`
and `get_hand_ids`: an `int` indexes `pool`, a `str` indexes `pool` at
`get_link_ids(item)`, anything else raises `TypeError`. -/
def lookupItem (st : ManipulatorState) (pool : List (List Int)) (item : PyArg) :
    Except PyError (List Int) :=
  match item with
  | .intV i => pyIndex pool i
  | .strV s => pyIndex pool (st.getLinkIds s)
  | _ => Except.error PyError.typeError

/-- `ManipulatorRobot.get_arm_ids(self, arms=None)`: dispatch on the runtime
type of `arms`; when `arms` is neither `None`, `int`, `str`, `list` nor
`tuple`, no branch fires and control falls through to `return self.arms`. -/
def get_arm_ids (st : ManipulatorState) (arms : PyArg) : Except PyError IdsResult :=
  match arms with
  | .intV i => (pyIndex st.arms i).map IdsResult.one
  | .strV s => (pyIndex st.arms (st.getLinkIds s)).map IdsResult.one
  | .listV items => (items.mapM (lookupItem st st.arms)).map IdsResult.many
  | .noneV => Except.ok (IdsResult.many st.arms)
  | .otherV _ => Except.ok (IdsResult.many st.arms)

/-- `ManipulatorRobot.get_hand_ids(self, hands=None)`: same shape as
`get_arm_ids`, over `self.hands`. -/
def get_hand_ids (st : ManipulatorState) (hands : PyArg) : Except PyError IdsResult :=
  match hands with
  | .intV i => (pyIndex st.hands i).map IdsResult.one
  | .strV s => (pyIndex st.hands (st.getLinkIds s)).map IdsResult.one
  | .listV items => (items.mapM (lookupItem st st.hands)).map IdsResult.many
  | .noneV => Except.ok (IdsResult.many st.hands)
  | .otherV _ => Except.ok (IdsResult.many st.hands)

/-! ## `BiManipulatorRobot` -/

/-- State of a `BiManipulatorRobot`: the manipulator lists plus the four id
attributes assigned in `__init__`. -/
structure BiManipulatorState where
  arms : List (List Int)
  hands : List (List Int)
  left_arm_id : Int
  left_hand_id : Int
  right_arm_id : Int
  right_hand_id : Int
deriving DecidableEq, Repr

namespace BiManipulatorRobot

/-- `BiManipulatorRobot.__init__`: after the parent sets up empty `arms` and
`hands`, assign `left_arm_id = 0`, `left_hand_id = 0`, `right_arm_id = 1`,
`right_hand_id = 1`. -/
def init : BiManipulatorState :=
  { arms := [], hands := [],
    left_arm_id := 0, left_hand_id := 0, right_arm_id := 1, right_hand_id := 1 }

/-- Property `left_arm`: `return self.arms[self.left_arm_id]`. -/
def left_arm (s : BiManipulatorState) : Except PyError (List Int) :=
  pyIndex s.arms s.left_arm_id

/-- Property `right_arm`: `return self.arms[self.right_arm_id]`. -/
def right_arm (s : BiManipulatorState) : Except PyError (List Int) :=
  pyIndex s.arms s.right_arm_id

/-- Property `left_hand`: `return self.hands[self.left_hand_id]`. -/
def left_hand (s : BiManipulatorState) : Except PyError (List Int) :=
  pyIndex s.hands s.left_hand_id

/-- Property `right_hand`: `return self.hands[self.right_arm_id]` — the
source indexes `hands` with `right_arm_id`, not `right_hand_id`. -/
def right_hand (s : BiManipulatorState) : Except PyError (List Int) :=
  pyIndex s.hands s.right_arm_id

end BiManipulatorRobot

/-! ## Approximator (`approximator.py`)

Only the `model.setter` matters to the claims: it is reached by
`self.model = model` both in `__init__` and on later assignment. -/

/-- An inner learnable model as the setter sees it: it has `input_shape`
and `output_shape` attributes (read as shape tuples). -/
structure PyLearnModel where
  input_shape : List Nat
  output_shape : List Nat
deriving DecidableEq, Repr

/-- Attribute state of an `Approximator` relevant to the `model.setter`:
the declared inputs and outputs (here by the shape they carry, `none` when
unset) and the stored `_model`. -/
structure ApproxState where
  _inputs : Option (List Nat)
  _outputs : Option (List Nat)
  _model : Option PyLearnModel
deriving DecidableEq, Repr

namespace Approximator

/-- The `model.setter` of `Approximator`: when the argument is not `None`
it raises `ValueError` if `self._inputs is None`, then `ValueError` if
`self._outputs is None`, then executes `shape = model.input_shape` (a plain
attribute read — the two shape-checking blocks of the source are `# TODO`
comments and perform no comparison), and finally `self._model = model`
unconditionally. -/
def setModel (s : ApproxState) (model : Option PyLearnModel) :
    Except PyError ApproxState :=
  match model with
  | none => Except.ok { s with _model := none }
  | some mdl =>
    if s._inputs = none then Except.error PyError.valueError
    else if s._outputs = none then Except.error PyError.valueError
    else
      let _shape := mdl.input_shape
      Except.ok { s with _model := some mdl }

end Approximator

/-! ## QP standard form and hard-priority cascade (module docstring of
`constraint.py`)

The docstring states the reduction of the weighted objective
`||A x - b||²_W` to the standard QP objective `xᵀ Q x + pᵀ x` plus a
constant, and the hard-priority scheme in which each solved level `j`
contributes the frozen equality `A_j x = A_j x_j*` to all later levels.
Vectors are `Fin n → ℚ` and matrices Mathlib `Matrix` over `ℚ`. -/

namespace QP

open Matrix

/-- The weighted quadratic objective `||A x - b||²_W = (Ax-b)ᵀ W (Ax-b)` of
the module docstring. -/
def objW {m n : ℕ} (A : Matrix (Fin m) (Fin n) ℚ) (b : Fin m → ℚ)
    (W : Matrix (Fin m) (Fin m) ℚ) (x : Fin n → ℚ) : ℚ :=
  dotProduct (A.mulVec x - b) (W.mulVec (A.mulVec x - b))

/-- The quadratic coefficient of the standard form: `Q = Aᵀ W A`. -/
def Qmat {m n : ℕ} (A : Matrix (Fin m) (Fin n) ℚ)
    (W : Matrix (Fin m) (Fin m) ℚ) : Matrix (Fin n) (Fin n) ℚ :=
  Aᵀ * W * A

/-- The linear coefficient of the standard form: `p = -2 Aᵀ W b`. -/
def pvec {m n : ℕ} (A : Matrix (Fin m) (Fin n) ℚ) (b : Fin m → ℚ)
    (W : Matrix (Fin m) (Fin m) ℚ) : Fin n → ℚ :=
  (-2 : ℚ) • (Aᵀ * W).mulVec b

/-- The squared residual `||A x - b||²` of one priority level (unweighted,
as in the hard-priority part of the docstring). -/
def residSq {m n : ℕ} (A : Matrix (Fin m) (Fin n) ℚ) (b : Fin m → ℚ)
    (x : Fin n → ℚ) : ℚ :=
  dotProduct (A.mulVec x - b) (A.mulVec x - b)

/-- Modelled from the spec: the priority aggregator that performs the hard
composition is not part of this excerpt (only the module docstring of
`constraint.py` documents it).  The frozen equality constraint that a solved
level `j` with matrix `A` and solution `xstar` imposes on every later
level's QP is `A x = A xstar`. -/
def FrozenEq {m n : ℕ} (A : Matrix (Fin m) (Fin n) ℚ)
    (xstar x : Fin n → ℚ) : Prop :=
  A.mulVec x = A.mulVec xstar

end QP

deriving instance DecidableEq for Except

/-! ## Theorems -/

/-- Claim C1, counterexample: `EqualityConstraint.is_equality_constraint()`
returns `False` (inherited unchanged from `Constraint`), so it is not the
case that exactly one of the three classification predicates returns `True`
on `EqualityConstraint`; the claim fails at this concrete variant. -/
theorem equalityConstraint_predicate_is_false :
    is_equality_constraint ConstraintClass.equalityConstraint = some false ∧
    exactlyOneClassification ConstraintClass.equalityConstraint = false := by
  decide

/-- Claim C1 (amended): for every class of the constraint taxonomy, each of
the predicates `is_equality_constraint()`, `is_inequality_constraint()` and
`has_bounds()` returns `False` — none returns `True`, so "exactly one true"
fails on every concrete variant.  The predicates are static methods whose
resolved value depends only on the class, never on instance state, so the
value of each predicate cannot change after construction. -/
theorem constraint_predicates_all_false (c : ConstraintClass) :
    is_equality_constraint c = some false ∧
    is_inequality_constraint c = some false ∧
    has_bounds c = some false ∧
    exactlyOneClassification c = false := by
  cases c <;> decide

/-- Claim C4: for every argument, `Constraint.__init__` (which assigns
through the `model` setter) raises `TypeError` when the argument is not a
`ModelInterface` instance, and succeeds when it is; whenever construction
succeeds, the `model` field holds exactly the passed object. -/
theorem constraint_init_model_check (m : PyObj) :
    Constraint.init m =
      (if m.isModelInterface then
        Except.ok ({ _model := m } : ConstraintState)
       else Except.error PyError.typeError) ∧
    (∀ s : ConstraintState, Constraint.init m = Except.ok s →
      Constraint.model s = m) := by
  constructor
  · rcases m with ⟨mi, mid⟩
    cases mi <;> rfl
  · intro s hs
    rcases m with ⟨mi, mid⟩
    cases mi
    · simp [Constraint.init, Constraint.setModel, Except.map] at hs
    · simp [Constraint.init, Constraint.setModel, Except.map] at hs
      subst hs
      rfl

/-- Claim C4, witness: at the concrete `ModelInterface` object with id `7`,
construction succeeds and stores it; the non-`ModelInterface` object with
id `9` is rejected with `TypeError`. -/
theorem constraint_init_model_check_witness :
    Constraint.init (PyObj.mk true 7) =
      Except.ok ({ _model := PyObj.mk true 7 } : ConstraintState) ∧
    Constraint.init (PyObj.mk false 9) = Except.error PyError.typeError ∧
    Constraint.model ({ _model := PyObj.mk true 7 } : ConstraintState) =
      PyObj.mk true 7 := by
  have Ht := constraint_init_model_check (PyObj.mk true 7)
  have Hf := constraint_init_model_check (PyObj.mk false 9)
  exact ⟨Ht.1, Hf.1, Ht.2 { _model := PyObj.mk true 7 } Ht.1⟩

/-- Helper: a successful `Constraint.__init__` produces exactly the state
whose only set attribute is `_model`, holding the passed object. -/
theorem Constraint.init_ok_shape (m : PyObj) (s : ConstraintState)
    (hs : Constraint.init m = Except.ok s) : s = { _model := m } := by
  rcases m with ⟨mi, mid⟩
  cases mi
  · simp [Constraint.init, Constraint.setModel, Except.map] at hs
  · simp [Constraint.init, Constraint.setModel, Except.map] at hs
    exact hs.symm

/-- Claim C5, counterexample: on a freshly constructed `Constraint`, even
after `update(x)` has run, `lower_bound` still raises (`AttributeError`)
instead of returning the internal state: the base `update` is a no-op and
never initializes the backing attributes, so "after update has run they
return the current internal state" fails at this input. -/
theorem accessor_fails_after_update_has_run :
    Constraint.init (PyObj.mk true 0) =
      Except.ok ({ _model := PyObj.mk true 0 } : ConstraintState) ∧
    Constraint.lower_bound
        (Constraint.update ({ _model := PyObj.mk true 0 } : ConstraintState) []) =
      Except.error PyError.attributeError :=
  ⟨rfl, rfl⟩

/-- Claim C5 (amended): on every freshly constructed `Constraint`, each of
the seven accessors fails with an `AttributeError`-style error (never
silently returns a value); the base `update` is a no-op, so the accessors
fail the same way after `update` has run; and whenever a backing attribute
has been assigned, the corresponding accessor returns exactly the stored
value without modifying the state (accessors are pure field reads). -/
theorem constraint_accessor_protocol (m : PyObj) (s t : ConstraintState)
    (x v : PyVec) (M : PyMat)
    (hs : Constraint.init m = Except.ok s)
    (hv : t._lower_bound = some v) (hM : t._A_eq = some M) :
    Constraint.lower_bound s = Except.error PyError.attributeError ∧
    Constraint.upper_bound s = Except.error PyError.attributeError ∧
    Constraint.A_eq s = Except.error PyError.attributeError ∧
    Constraint.b_eq s = Except.error PyError.attributeError ∧
    Constraint.A_ineq s = Except.error PyError.attributeError ∧
    Constraint.b_lower_bound s = Except.error PyError.attributeError ∧
    Constraint.b_upper_bound s = Except.error PyError.attributeError ∧
    Constraint.update s x = s ∧
    Constraint.lower_bound t = Except.ok v ∧
    Constraint.A_eq t = Except.ok M := by
  have hshape := Constraint.init_ok_shape m s hs
  subst hshape
  refine ⟨rfl, rfl, rfl, rfl, rfl, rfl, rfl, rfl, ?_, ?_⟩
  · simp [Constraint.lower_bound, Constraint.readAttr, hv]
  · simp [Constraint.A_eq, Constraint.readAttr, hM]

/-- Claim C5, witness: concrete fresh state (accessor errors) and a
concrete state with `_lower_bound` assigned (accessor returns it). -/
theorem constraint_accessor_protocol_witness :
    Constraint.lower_bound ({ _model := PyObj.mk true 0 } : ConstraintState) =
      Except.error PyError.attributeError ∧
    Constraint.lower_bound
        ({ _model := PyObj.mk true 0, _lower_bound := some [1],
           _A_eq := some [[1]] } : ConstraintState) =
      Except.ok [1] := by
  have H := constraint_accessor_protocol (PyObj.mk true 0)
    { _model := PyObj.mk true 0 }
    { _model := PyObj.mk true 0, _lower_bound := some [1], _A_eq := some [[1]] }
    [] [1] [[1]] rfl rfl rfl
  exact ⟨H.1, H.2.2.2.2.2.2.2.2.1⟩

/-- Claim C6: `Constraint.update(x)` is a pure, deterministic function of
(instance state, `x`): calling it twice with identical state and identical
`x` gives identical results, and (its body being `pass`) it performs no
effect at all — it returns the state unchanged, so all constraint matrices
and vectors after the call equal those before, with no I/O. -/
theorem constraint_update_deterministic (s₁ s₂ : ConstraintState)
    (x₁ x₂ : PyVec) (hs : s₁ = s₂) (hx : x₁ = x₂) :
    Constraint.update s₁ x₁ = Constraint.update s₂ x₂ ∧
    Constraint.update s₁ x₁ = s₁ := by
  subst hs
  subst hx
  exact ⟨rfl, rfl⟩

/-- Claim C6, witness: two identical concrete calls coincide and leave the
concrete state unchanged. -/
theorem constraint_update_deterministic_witness :
    Constraint.update ({ _model := PyObj.mk true 0 } : ConstraintState) [1] =
      Constraint.update ({ _model := PyObj.mk true 0 } : ConstraintState) [1] ∧
    Constraint.update ({ _model := PyObj.mk true 0 } : ConstraintState) [1] =
      { _model := PyObj.mk true 0 } :=
  constraint_update_deterministic _ _ _ _ rfl rfl

/-- Claim C7: on every `Constraint` instance, the property accessors `G`,
`h`, `F` and `c` raise nothing and return `None`: the standard-form
conversion is not implemented. -/
theorem constraint_GhFc_return_none (s : ConstraintState) :
    Constraint.G s = Except.ok none ∧ Constraint.h s = Except.ok none ∧
    Constraint.F s = Except.ok none ∧ Constraint.c s = Except.ok none :=
  ⟨rfl, rfl, rfl, rfl⟩

/-- Claim C9: calling `get_arm_ids` (resp. `get_hand_ids`) with an argument
that is neither `None` nor an `int`, `str`, `list` or `tuple` raises no
error: none of the `isinstance` branches fires, control falls through to
the trailing `return`, and the complete `arms` (resp. `hands`) list is
returned — the same result as calling with `None`. -/
theorem get_ids_unknown_type_falls_through (st : ManipulatorState) (tag : Nat) :
    get_arm_ids st (PyArg.otherV tag) = Except.ok (IdsResult.many st.arms) ∧
    get_arm_ids st (PyArg.otherV tag) = get_arm_ids st PyArg.noneV ∧
    get_hand_ids st (PyArg.otherV tag) = Except.ok (IdsResult.many st.hands) ∧
    get_hand_ids st (PyArg.otherV tag) = get_hand_ids st PyArg.noneV :=
  ⟨rfl, rfl, rfl, rfl⟩

/-- Claim C10: `BiManipulatorRobot.right_hand` returns
`hands[right_arm_id]` (not `hands[right_hand_id]`); the two coincide
whenever `right_hand_id = right_arm_id`, which holds at construction where
both are set to `1`; `left_hand` always returns `hands[left_hand_id]`; and
there is a reachable-by-mutation state with `right_hand_id ≠ right_arm_id`
where the two indexings disagree. -/
theorem right_hand_indexes_with_right_arm_id (s : BiManipulatorState)
    (heq : s.right_hand_id = s.right_arm_id) :
    BiManipulatorRobot.right_hand s = pyIndex s.hands s.right_arm_id ∧
    BiManipulatorRobot.right_hand s = pyIndex s.hands s.right_hand_id ∧
    BiManipulatorRobot.left_hand s = pyIndex s.hands s.left_hand_id ∧
    BiManipulatorRobot.init.right_arm_id = 1 ∧
    BiManipulatorRobot.init.right_hand_id = 1 ∧
    (∃ t : BiManipulatorState, t.right_hand_id ≠ t.right_arm_id ∧
      BiManipulatorRobot.right_hand t ≠ pyIndex t.hands t.right_hand_id) := by
  refine ⟨rfl, ?_, rfl, rfl, rfl, ?_⟩
  · rw [BiManipulatorRobot.right_hand, heq]
  · exact ⟨⟨[], [[1], [2], [3]], 0, 0, 1, 2⟩, by decide, by decide⟩

/-- Claim C10, witness: at the constructed state (both ids equal `1`),
`right_hand` indexes `hands` at `right_arm_id`, which equals `1`. -/
theorem right_hand_indexes_with_right_arm_id_witness :
    BiManipulatorRobot.right_hand BiManipulatorRobot.init =
      pyIndex BiManipulatorRobot.init.hands BiManipulatorRobot.init.right_arm_id ∧
    BiManipulatorRobot.init.right_arm_id = 1 ∧
    BiManipulatorRobot.init.right_hand_id = 1 := by
  have H := right_hand_indexes_with_right_arm_id BiManipulatorRobot.init rfl
  exact ⟨H.1, H.2.2.2.1, H.2.2.2.2.1⟩

/-- Claim C2: Modelled from the spec — the priority aggregator performing
the hard composition is absent from the excerpt; its frozen-equality
semantics is taken from the module docstring of `constraint.py`.  Any `x`
satisfying the frozen equality `A x = A xstar` of a solved higher-priority
level achieves exactly the residual `||A x - b||²` that `xstar` achieved,
so a lower-priority solution constrained by the frozen equalities never
degrades the optimality attained by higher-priority levels. -/
theorem frozen_equality_preserves_residual {m n : ℕ}
    (A : Matrix (Fin m) (Fin n) ℚ) (b : Fin m → ℚ) (xstar x : Fin n → ℚ)
    (hfrozen : QP.FrozenEq A xstar x) :
    QP.residSq A b x = QP.residSq A b xstar := by
  unfold QP.FrozenEq at hfrozen
  unfold QP.residSq
  rw [hfrozen]

/-- Claim C2, witness: with the zero matrix every vector satisfies the
frozen equality, and the residuals of `x = 1` and `xstar = 2` coincide. -/
theorem frozen_equality_preserves_residual_witness :
    QP.FrozenEq (0 : Matrix (Fin 1) (Fin 1) ℚ) (fun _ => 2) (fun _ => 1) ∧
    QP.residSq (0 : Matrix (Fin 1) (Fin 1) ℚ) (fun _ => 5) (fun _ => 1) =
      QP.residSq (0 : Matrix (Fin 1) (Fin 1) ℚ) (fun _ => 5) (fun _ => 2) := by
  have hf : QP.FrozenEq (0 : Matrix (Fin 1) (Fin 1) ℚ) (fun _ => 2) (fun _ => 1) := by
    unfold QP.FrozenEq
    simp
  exact ⟨hf,
    frozen_equality_preserves_residual 0 (fun _ => 5) (fun _ => 2) (fun _ => 1) hf⟩

open Matrix in
/-- Helper: pull a matrix transpose out of `mulVec` across a dot product. -/
theorem dot_transpose_mulVec {m n : ℕ} (A : Matrix (Fin m) (Fin n) ℚ)
    (x : Fin n → ℚ) (z : Fin m → ℚ) :
    dotProduct x (Aᵀ.mulVec z) = dotProduct (A.mulVec x) z := by
  rw [Matrix.dotProduct_mulVec, Matrix.vecMul_transpose]

open Matrix in
/-- Helper: a symmetric matrix can be moved to the other side of a dot
product. -/
theorem dot_symm_swap {m : ℕ} (W : Matrix (Fin m) (Fin m) ℚ)
    (hW : W.IsSymm) (u v : Fin m → ℚ) :
    dotProduct u (W.mulVec v) = dotProduct v (W.mulVec u) := by
  calc dotProduct u (W.mulVec v)
      = dotProduct (W.vecMul u) v := Matrix.dotProduct_mulVec u W v
    _ = dotProduct (Wᵀ.mulVec u) v := by rw [Matrix.mulVec_transpose]
    _ = dotProduct (W.mulVec u) v := by rw [hW.eq]
    _ = dotProduct v (W.mulVec u) := Matrix.dotProduct_comm _ _

open Matrix in
/-- Claim C3: for every `A`, `b`, symmetric `W`, the weighted objective
`||Ax - b||²_W` equals `xᵀ Q x + pᵀ x` plus the constant `bᵀ W b`
(independent of `x`), with `Q = Aᵀ W A` and `p = -2 Aᵀ W b`; and when a
linear cost `cᵀ x` is added, the linear coefficient becomes
`c - 2 Aᵀ W b`. -/
theorem qp_standard_form {m n : ℕ} (A : Matrix (Fin m) (Fin n) ℚ)
    (b : Fin m → ℚ) (W : Matrix (Fin m) (Fin m) ℚ) (cv x : Fin n → ℚ)
    (hW : W.IsSymm) :
    QP.objW A b W x =
      dotProduct x ((QP.Qmat A W).mulVec x) + dotProduct (QP.pvec A b W) x
        + dotProduct b (W.mulVec b) ∧
    QP.objW A b W x + dotProduct cv x =
      dotProduct x ((QP.Qmat A W).mulVec x)
        + dotProduct (cv - (2 : ℚ) • (Aᵀ * W).mulVec b) x
        + dotProduct b (W.mulVec b) := by
  have hQ : dotProduct x ((Aᵀ * W * A).mulVec x)
      = dotProduct (A.mulVec x) (W.mulVec (A.mulVec x)) := by
    rw [← Matrix.mulVec_mulVec, ← Matrix.mulVec_mulVec, dot_transpose_mulVec]
  have hp0 : dotProduct ((Aᵀ * W).mulVec b) x
      = dotProduct (A.mulVec x) (W.mulVec b) := by
    rw [Matrix.dotProduct_comm, ← Matrix.mulVec_mulVec, dot_transpose_mulVec]
  have hsw : dotProduct b (W.mulVec (A.mulVec x))
      = dotProduct (A.mulVec x) (W.mulVec b) := dot_symm_swap W hW b (A.mulVec x)
  have key : QP.objW A b W x =
      dotProduct x ((QP.Qmat A W).mulVec x) + dotProduct (QP.pvec A b W) x
        + dotProduct b (W.mulVec b) := by
    unfold QP.objW QP.Qmat QP.pvec
    rw [Matrix.mulVec_sub, Matrix.sub_dotProduct, Matrix.dotProduct_sub,
      Matrix.dotProduct_sub, hQ, hsw, Matrix.smul_dotProduct, hp0]
    simp only [smul_eq_mul]
    ring
  refine ⟨key, ?_⟩
  rw [key]
  unfold QP.pvec
  rw [Matrix.sub_dotProduct, Matrix.smul_dotProduct, Matrix.smul_dotProduct]
  simp only [smul_eq_mul]
  ring

open Matrix in
/-- Claim C3, witness: at `A = W = 1` (1×1), `b = x = cv = 1`, the weight
matrix is symmetric and both standard-form identities hold. -/
theorem qp_standard_form_witness :
    (1 : Matrix (Fin 1) (Fin 1) ℚ).IsSymm ∧
    QP.objW (1 : Matrix (Fin 1) (Fin 1) ℚ) (fun _ => 1) 1 (fun _ => 1) =
      dotProduct (fun _ => (1 : ℚ))
          ((QP.Qmat (1 : Matrix (Fin 1) (Fin 1) ℚ) 1).mulVec (fun _ => 1))
        + dotProduct (QP.pvec (1 : Matrix (Fin 1) (Fin 1) ℚ) (fun _ => 1) 1)
            (fun _ => 1)
        + dotProduct (fun _ => (1 : ℚ))
            ((1 : Matrix (Fin 1) (Fin 1) ℚ).mulVec (fun _ => 1)) :=
  ⟨Matrix.isSymm_one,
   (qp_standard_form 1 (fun _ => 1) 1 (fun _ => 1) (fun _ => 1)
      Matrix.isSymm_one).1⟩

/-- Claim C8, counterexample: with inputs declared of shape `[3]` and
outputs of shape `[2]`, assigning a model whose `input_shape` is `[7]` and
`output_shape` is `[9]` — both mismatched — succeeds and stores the model:
no `ValueError` is raised, because the shape-comparison blocks of the
setter are unexecuted `TODO` comments. -/
theorem approximator_accepts_mismatched_shapes :
    Approximator.setModel ⟨some [3], some [2], none⟩
        (some (PyLearnModel.mk [7] [9])) =
      Except.ok ⟨some [3], some [2], some (PyLearnModel.mk [7] [9])⟩ ∧
    (PyLearnModel.mk [7] [9]).input_shape ≠ [3] ∧
    (PyLearnModel.mk [7] [9]).output_shape ≠ [2] :=
  ⟨rfl, by decide, by decide⟩

/-- Claim C8 (amended): the `model` setter raises `ValueError` exactly when
a non-`None` model is given while `inputs` or `outputs` have not been set;
in every other case the assignment succeeds and stores exactly the given
model — no shape comparison is performed (the check is left `TODO`), so
assignment succeeds even when the model's `input_shape`/`output_shape`
mismatch the wrapper's declared inputs/outputs. -/
theorem approximator_setModel_spec (s t u : ApproxState) (mdl : PyLearnModel)
    (hin : s._inputs ≠ none) (hout : s._outputs ≠ none)
    (ht : t._inputs = none) (hu : u._inputs ≠ none) (hu2 : u._outputs = none) :
    Approximator.setModel s (some mdl) =
      Except.ok { s with _model := some mdl } ∧
    Approximator.setModel s none = Except.ok { s with _model := none } ∧
    Approximator.setModel t (some mdl) = Except.error PyError.valueError ∧
    Approximator.setModel u (some mdl) = Except.error PyError.valueError := by
  refine ⟨?_, rfl, ?_, ?_⟩
  · simp [Approximator.setModel, hin, hout]
  · simp [Approximator.setModel, ht]
  · simp [Approximator.setModel, hu, hu2]

/-- Claim C8, witness: a fully declared wrapper accepts a matching model,
and a wrapper without declared inputs rejects a model with `ValueError`. -/
theorem approximator_setModel_spec_witness :
    Approximator.setModel ⟨some [3], some [2], none⟩
        (some (PyLearnModel.mk [3] [2])) =
      Except.ok ⟨some [3], some [2], some (PyLearnModel.mk [3] [2])⟩ ∧
    Approximator.setModel ⟨none, some [2], none⟩
        (some (PyLearnModel.mk [3] [2])) =
      Except.error PyError.valueError := by
  have H := approximator_setModel_spec ⟨some [3], some [2], none⟩
    ⟨none, some [2], none⟩ ⟨some [3], none, none⟩ (PyLearnModel.mk [3] [2])
    (by decide) (by decide) rfl (by decide) rfl
  exact ⟨H.1, H.2.2.1⟩
